import Mathlib

/-!
Shallow embedding of the DevCollabBolt collaborative-workspace backend:
the per-file lock state machine (`Workspace.lockFile` / `Workspace.unlockFile`
and the lock / unlock / file-update HTTP routes), the code-execution
dispatcher with its subprocess finalization handlers, and the FIFO
execution queue, all translated from `src/backend/models/Workspace.js`
and `src/backend/routes/workspaces.js`.

User ids (Mongo ObjectIds compared via `toString()`) are modelled as `Nat`,
timestamps (`Date.now()`) as `Nat` milliseconds, and HTTP responses as the
numeric status code paired with the stored (saved) workspace state.
-/

namespace DevCollab

/-- One entry of a file's bounded version history (`fileVersionSchema`). -/
structure FileVersion where
  content : String
  author : Nat
  deriving DecidableEq, Repr

/-- A workspace file (`fileSchema`): name, content, language tag, the lock
descriptor `isLocked` / `lockedBy` / `lockedAt`, and the version list. -/
structure File where
  id : Nat
  name : String
  content : String
  language : String
  isLocked : Bool
  lockedBy : Option Nat
  lockedAt : Option Nat
  versions : List FileVersion
  deriving DecidableEq, Repr

/-- Status enum of `executionResultSchema`. -/
inductive Status where
  | pending
  | running
  | completed
  | error
  | timeout
  deriving DecidableEq, Repr

/-- A persisted execution result (`executionResultSchema`). `exitCode` is
nullable in the schema, hence an `Option Int`. -/
structure ExecutionResult where
  fileId : Nat
  executedBy : Nat
  stdout : String
  stderr : String
  exitCode : Option Int
  executionTime : Nat
  status : Status
  deriving DecidableEq, Repr

/-- A workspace member record (element of `workspaceSchema.members`). -/
structure Member where
  user : Nat
  role : String
  deriving DecidableEq, Repr

/-- The workspace aggregate (`workspaceSchema`), restricted to the fields
the lock manager and execution subsystem touch. -/
structure Workspace where
  owner : Nat
  members : List Member
  files : List File
  executionResults : List ExecutionResult
  allowExecution : Bool
  deriving DecidableEq, Repr

/-- Replace the first element satisfying `p` by its image under `u`,
modelling in-place mutation of the subdocument returned by
`this.files.id(fileId)`. -/
def updateFirst (p : α → Bool) (u : α → α) : List α → List α
  | [] => []
  | x :: xs => if p x then u x :: xs else x :: updateFirst p u xs

/-- The three field assignments the body of `lockFile` performs on the
found file. -/
def setLock (userId now : Nat) (g : File) : File :=
  { g with isLocked := true, lockedBy := some userId,
           lockedAt := some now }

/-- The three field assignments the body of `unlockFile` performs on the
found file (`lockedBy` / `lockedAt` set to `undefined`). -/
def clearLock (g : File) : File :=
  { g with isLocked := false, lockedBy := none, lockedAt := none }

/-- Mongoose subdocument lookup `this.files.id(fileId)`. -/
def Workspace.findFile (w : Workspace) (fileId : Nat) : Option File :=
  w.files.find? (fun f => f.id == fileId)

/-- `workspaceSchema.methods.isMember`: the caller appears in `members`
or is the owner. -/
def Workspace.isMember (w : Workspace) (userId : Nat) : Bool :=
  w.members.any (fun m => m.user == userId) || w.owner == userId

/-- `workspaceSchema.methods.lockFile`: succeeds iff the file exists and
`!file.isLocked`; on success sets `isLocked = true`, `lockedBy = userId`,
`lockedAt = new Date()` (modelled as the `now` argument) and returns
`true`; otherwise returns `false` leaving the document untouched. -/
def Workspace.lockFile (w : Workspace) (fileId userId now : Nat) :
    Bool × Workspace :=
  match w.findFile fileId with
  | some f =>
    if !f.isLocked then
      let fs := updateFirst (fun g => g.id == fileId)
        (setLock userId now) w.files
      (true, { w with files := fs })
    else (false, w)
  | none => (false, w)

/-- `workspaceSchema.methods.unlockFile`: succeeds iff the file exists,
`file.isLocked`, and `file.lockedBy.toString() === userId.toString()`;
on success clears all three lock fields. -/
def Workspace.unlockFile (w : Workspace) (fileId userId : Nat) :
    Bool × Workspace :=
  match w.findFile fileId with
  | some f =>
    if f.isLocked && f.lockedBy == some userId then
      let fs := updateFirst (fun g => g.id == fileId) clearLock w.files
      (true, { w with files := fs })
    else (false, w)
  | none => (false, w)

/-- `workspaceSchema.methods.addFileVersion`: unshift a new version,
truncate the history to 10 entries when it exceeds 10, and set the
file's content. Returns `false` when the file does not exist. -/
def Workspace.addFileVersion (w : Workspace) (fileId : Nat)
    (content : String) (authorId : Nat) : Bool × Workspace :=
  match w.findFile fileId with
  | some _ =>
    let fs := updateFirst (fun g => g.id == fileId)
      (fun f =>
        let vs := ({ content := content, author := authorId } : FileVersion)
          :: f.versions
        let vs' := if vs.length > 10 then vs.take 10 else vs
        { f with versions := vs', content := content }) w.files
    (true, { w with files := fs })
  | none => (false, w)

/-- An HTTP outcome: the numeric status code sent to the caller, paired
with the persisted workspace state after the handler ran (`none` when no
workspace with the requested id exists in the store). -/
abbrev Resp := Nat × Option Workspace

/-- Route handler `POST /:id/files/:fileId/lock`: 404 when
`findById` finds no workspace, 403 when the caller is not a member,
423 when `lockFile` returns `false` (already locked or file missing;
nothing is saved), else the locked workspace is saved and 200 returned. -/
def lockRoute (store : Option Workspace) (userId fileId now : Nat) : Resp :=
  match store with
  | none => (404, none)
  | some w =>
    if !w.isMember userId then (403, some w)
    else
      let r := w.lockFile fileId userId now
      if !r.1 then (423, some w)
      else (200, some r.2)

/-- Route handler `POST /:id/files/:fileId/unlock`: 404 when the
workspace is missing, 403 for a non-member, 400 when `unlockFile`
returns `false` (not locked by the caller, or file missing; nothing is
saved), else the cleared workspace is saved and 200 returned. -/
def unlockRoute (store : Option Workspace) (userId fileId : Nat) : Resp :=
  match store with
  | none => (404, none)
  | some w =>
    if !w.isMember userId then (403, some w)
    else
      let r := w.unlockFile fileId userId
      if !r.1 then (400, some w)
      else (200, some r.2)

/-- Route handler `PUT /:id/files/:fileId`: 404 when the workspace or
file is missing, 403 for a non-member, 423 when the file is locked by a
different user (nothing saved), else applies the `name` update (skipped
for a falsy, i.e. empty, name), the content/version update, saves, and
returns 200. -/
def updateFileRoute (store : Option Workspace) (userId fileId : Nat)
    (name content : Option String) : Resp :=
  match store with
  | none => (404, none)
  | some w =>
    if !w.isMember userId then (403, some w)
    else
      match w.findFile fileId with
      | none => (404, some w)
      | some f =>
        if f.isLocked && f.lockedBy != some userId then (423, some w)
        else
          let w1 := match name with
            | some n =>
              if n != "" then
                let fs := updateFirst (fun g => g.id == fileId)
                  (fun g => { g with name := n }) w.files
                { w with files := fs }
              else w
            | none => w
          let w2 := match content with
            | some c =>
              if c != f.content then (w1.addFileVersion fileId c userId).2
              else
                let fs := updateFirst (fun g => g.id == fileId)
                  (fun g => { g with content := c }) w1.files
                { w1 with files := fs }
            | none => w1
          (200, some w2)

/-- An in-memory execution job as pushed by
`POST /:id/files/:fileId/execute` onto `executionQueue`. -/
structure ExecutionJob where
  workspaceId : Nat
  fileId : Nat
  code : String
  language : String
  userId : Nat
  deriving DecidableEq, Repr

/-- The record `executeCode` pushes into `workspace.executionResults`
before dispatching: `status: 'running'`, empty stdout/stderr,
`executionTime: 0`, no exit code yet. -/
def initialResult (fileId userId : Nat) : ExecutionResult :=
  { fileId := fileId, executedBy := userId, status := Status.running,
    stdout := "", stderr := "", exitCode := none, executionTime := 0 }

/-- The `switch (language)` in `executeCode`: the fixed allow-list mapping
a language to the interpreter command and argument list. `typescript` is
deliberately mapped to the same `node -e` invocation as `javascript`
("For simplicity, treating as JS"). Any other language yields `none`. -/
def resolveCommand (language code : String) :
    Option (String × List String) :=
  if language == "javascript" then some ("node", ["-e", code])
  else if language == "typescript" then some ("node", ["-e", code])
  else if language == "python" then some ("python3", ["-c", code])
  else if language == "shell" then some ("bash", ["-c", code])
  else none

/-- What `executeCode` does after creating the running record: either a
`spawn(command, args, opts)` call with its timeout and kill-signal
options, or (default branch) an immediately finalized error result with
no spawn. -/
inductive ExecStep where
  | spawnProc (command : String) (args : List String)
      (timeoutMs : Nat) (killSignal : String)
  | immediateError (result : ExecutionResult)
  deriving DecidableEq, Repr

/-- The default branch of the `switch`: mark the running record as
`error`, with stderr naming the unsupported language and the elapsed
time recorded. -/
def unsupportedResult (r : ExecutionResult) (language : String)
    (elapsed : Nat) : ExecutionResult :=
  { r with status := Status.error,
           stderr := "Language " ++ language ++
             " is not supported for execution",
           executionTime := elapsed }

/-- The dispatch step of `executeCode`: resolve the language; on a hit
spawn the interpreter with `timeout: 5000` and `killSignal: 'SIGKILL'`,
otherwise finalize immediately with the unsupported-language error. -/
def executeDispatch (r : ExecutionResult) (language code : String)
    (elapsed : Nat) : ExecStep :=
  match resolveCommand language code with
  | some (cmd, args) => ExecStep.spawnProc cmd args 5000 "SIGKILL"
  | none => ExecStep.immediateError (unsupportedResult r language elapsed)

/-- The `child.on('close')` handler: store the accumulated stdout and
stderr, the exit code (`null`, i.e. `none`, when the child was killed by
a signal such as the timeout SIGKILL), the elapsed wall time, and set
`status = code === 0 ? 'completed' : 'error'`. -/
def closeFinalize (r : ExecutionResult) (exitCode : Option Int)
    (stdout stderr : String) (elapsed : Nat) : ExecutionResult :=
  { r with stdout := stdout, stderr := stderr, exitCode := exitCode,
           executionTime := elapsed,
           status := if exitCode == some 0 then Status.completed
                     else Status.error }

/-- The `child.on('error')` handler (spawn failure): record the failure
message in stderr, the elapsed time, and `status = 'error'`. -/
def errorFinalize (r : ExecutionResult) (message : String)
    (elapsed : Nat) : ExecutionResult :=
  { r with stderr := message, executionTime := elapsed,
           status := Status.error }

/-- State of the module-level execution queue machinery: the
`executionQueue` array, the `isProcessingQueue` flag, the jobs whose
`executeCode` has completed (in completion order), and the ghost list of
all submissions (in submission order). -/
structure QueueState where
  queue : List ExecutionJob
  processing : Bool
  done : List ExecutionJob
  submitted : List ExecutionJob
  deriving DecidableEq, Repr

/-- Initial queue state: empty arrays, flag down. -/
def QueueState.init : QueueState :=
  { queue := [], processing := false, done := [], submitted := [] }

/-- Atomic events of the queue machinery as they occur on the Node event
loop. `submit` is `executionQueue.push(job)` in the execute route;
`start` is `processExecutionQueue` passing its guard
(`isProcessingQueue` false, queue non-empty) and raising the flag;
`dequeue` is one iteration of the drain loop (`shift()` then
`await executeCode(job)` run to completion, the job reaching its
terminal result); `finish` is the loop exiting on an empty queue and
lowering the flag. -/
inductive QStep : QueueState → QueueState → Prop
  | submit (j : ExecutionJob) (s : QueueState) :
      QStep s { s with queue := s.queue ++ [j],
                       submitted := s.submitted ++ [j] }
  | start (s : QueueState) :
      s.processing = false → s.queue ≠ [] →
      QStep s { s with processing := true }
  | dequeue (j : ExecutionJob) (rest : List ExecutionJob) (s : QueueState) :
      s.processing = true → s.queue = j :: rest →
      QStep s { s with queue := rest, done := s.done ++ [j] }
  | finish (s : QueueState) :
      s.processing = true → s.queue = [] →
      QStep s { s with processing := false }

/-- Queue states reachable from the initial state by event-loop steps. -/
inductive QReachable : QueueState → Prop
  | init : QReachable QueueState.init
  | step {s t : QueueState} : QReachable s → QStep s t → QReachable t

/-- The workspace state the success branch of `lockFile` saves: the
first file matching `fileId` gets the lock descriptor set. -/
def Workspace.withLocked (w : Workspace) (fileId userId now : Nat) :
    Workspace :=
  { w with
    files := updateFirst (fun g => g.id == fileId)
               (setLock userId now) w.files }

/-- The workspace state the success branch of `unlockFile` saves: the
first file matching `fileId` gets its lock descriptor cleared. -/
def Workspace.withUnlocked (w : Workspace) (fileId : Nat) : Workspace :=
  { w with
    files := updateFirst (fun g => g.id == fileId) clearLock w.files }

/-- The completion phase of one `POST /:id/files/:fileId/lock` handler
whose `findById` read already returned `snapshot` (the handler's private
in-memory copy of the workspace document), while `store` is the current
persisted state. Membership check and `lockFile` run on the snapshot; a
successful lock is persisted by `workspace.save()`, i.e. the store is
overwritten with the handler's copy; on failure nothing is saved. -/
def lockHandlerFinish (store snapshot : Workspace)
    (userId fileId now : Nat) : Nat × Workspace :=
  if !snapshot.isMember userId then (403, store)
  else
    let r := snapshot.lockFile fileId userId now
    if !r.1 then (423, store)
    else (200, r.2)

/-- Concrete unlocked javascript file, used by the witnesses. -/
def fileA : File :=
  { id := 10, name := "main.js", content := "console.log(2+2)",
    language := "javascript", isLocked := false, lockedBy := none,
    lockedAt := none, versions := [] }

/-- Concrete file locked by member 2, used by the witnesses. -/
def fileB : File :=
  { id := 11, name := "locked.py", content := "print(1)",
    language := "python", isLocked := true, lockedBy := some 2,
    lockedAt := some 50, versions := [] }

/-- Concrete workspace (owner 1, members 2 and 3) holding `fileA` and
`fileB`, used by the witnesses. -/
def wsA : Workspace :=
  { owner := 1,
    members := [{ user := 2, role := "member" },
                { user := 3, role := "member" }],
    files := [fileA, fileB], executionResults := [],
    allowExecution := true }

/-- Concrete execution job, used by the queue witness. -/
def jobJ1 : ExecutionJob :=
  { workspaceId := 1, fileId := 10, code := "console.log(2+2)",
    language := "javascript", userId := 2 }

/-- Second concrete execution job, used by the queue witness. -/
def jobJ2 : ExecutionJob :=
  { workspaceId := 1, fileId := 11, code := "print(1)",
    language := "python", userId := 3 }

/-! ## Helper lemmas -/

theorem find?_updateFirst {α : Type} (p : α → Bool) (u : α → α)
    (hpu : ∀ a, p (u a) = p a) (l : List α) :
    (updateFirst p u l).find? p = (l.find? p).map u := by
  induction l with
  | nil => rfl
  | cons x xs ih =>
    by_cases hx : p x
    · simp [updateFirst, hx, List.find?_cons_of_pos, hpu]
    · simp [updateFirst, hx, List.find?_cons_of_neg, ih]

theorem findFile_update (w : Workspace) (fileId : Nat) (u : File → File)
    (hid : ∀ g, (u g).id = g.id) :
    Workspace.findFile
      { w with files := updateFirst (fun g => g.id == fileId) u w.files }
      fileId = (w.findFile fileId).map u := by
  show (updateFirst (fun g => g.id == fileId) u w.files).find?
    (fun g => g.id == fileId) = _
  rw [find?_updateFirst (fun g => g.id == fileId) u (fun a => by simp [hid])]
  rfl

theorem lockFile_unlocked (w : Workspace) (f : File)
    (fileId userId now : Nat)
    (hf : w.findFile fileId = some f) (hu : f.isLocked = false) :
    w.lockFile fileId userId now =
      (true, w.withLocked fileId userId now) := by
  unfold Workspace.lockFile
  rw [hf]
  simp [hu, Workspace.withLocked]

theorem lockFile_locked (w : Workspace) (f : File)
    (fileId userId now : Nat)
    (hf : w.findFile fileId = some f) (hl : f.isLocked = true) :
    w.lockFile fileId userId now = (false, w) := by
  unfold Workspace.lockFile
  rw [hf]
  simp [hl]

theorem lockFile_missing (w : Workspace) (fileId userId now : Nat)
    (hf : w.findFile fileId = none) :
    w.lockFile fileId userId now = (false, w) := by
  unfold Workspace.lockFile
  rw [hf]

theorem unlockFile_holder (w : Workspace) (f : File) (fileId userId : Nat)
    (hf : w.findFile fileId = some f) (hl : f.isLocked = true)
    (hb : f.lockedBy = some userId) :
    w.unlockFile fileId userId =
      (true, w.withUnlocked fileId) := by
  unfold Workspace.unlockFile
  rw [hf]
  simp [hl, hb, Workspace.withUnlocked]

theorem unlockFile_nonholder (w : Workspace) (f : File)
    (fileId userId : Nat)
    (hf : w.findFile fileId = some f)
    (hb : f.lockedBy ≠ some userId) :
    w.unlockFile fileId userId = (false, w) := by
  unfold Workspace.unlockFile
  rw [hf]
  have hb' : (f.lockedBy == some userId) = false := by
    simpa using hb
  simp [hb']

theorem unlockFile_unlocked (w : Workspace) (f : File)
    (fileId userId : Nat)
    (hf : w.findFile fileId = some f) (hl : f.isLocked = false) :
    w.unlockFile fileId userId = (false, w) := by
  unfold Workspace.unlockFile
  rw [hf]
  simp [hl]

theorem findFile_withLocked (w : Workspace) (fileId userId now : Nat) :
    (w.withLocked fileId userId now).findFile fileId =
      (w.findFile fileId).map (setLock userId now) := by
  unfold Workspace.withLocked
  exact findFile_update w fileId (setLock userId now) (fun g => rfl)

theorem findFile_withUnlocked (w : Workspace) (fileId : Nat) :
    (w.withUnlocked fileId).findFile fileId =
      (w.findFile fileId).map clearLock := by
  unfold Workspace.withUnlocked
  exact findFile_update w fileId clearLock (fun g => rfl)

/-! ## Claim theorems -/

/-- C1: the lock-acquire state machine. For a workspace member and an
existing file: when the file's lock descriptor is empty, the lock route
answers 200 and saves the workspace with the file's descriptor set to
locked / lockedBy the caller / lockedAt now; when the file is already
locked (by anyone, the caller included), the route answers 423 Conflict
and the stored workspace is unchanged. -/
theorem lock_acquire_state_machine (w : Workspace) (f : File)
    (userId fileId now : Nat)
    (hm : w.isMember userId = true)
    (hf : w.findFile fileId = some f) :
    (f.isLocked = false →
      lockRoute (some w) userId fileId now =
        (200, some (w.withLocked fileId userId now)) ∧
      ∃ f', (w.withLocked fileId userId now).findFile fileId = some f' ∧
        f'.isLocked = true ∧ f'.lockedBy = some userId ∧
        f'.lockedAt = some now) ∧
    (f.isLocked = true →
      lockRoute (some w) userId fileId now = (423, some w)) := by
  refine ⟨fun hu => ⟨?_, ?_⟩, fun hl => ?_⟩
  · have hlock := lockFile_unlocked w f fileId userId now hf hu
    simp [lockRoute, hm, hlock]
  · refine ⟨setLock userId now f, ?_, rfl, rfl, rfl⟩
    rw [findFile_withLocked, hf]
    rfl
  · have hlock := lockFile_locked w f fileId userId now hf hl
    simp [lockRoute, hm, hlock]

/-- Witness for C1 at the concrete workspace `wsA`: member 3 acquires
the unlocked `fileA` and gets 200 with the descriptor set; member 3
acquiring the already-locked `fileB` gets 423 with the store unchanged. -/
theorem lock_acquire_state_machine_witness :
    lockRoute (some wsA) 3 10 100 =
      (200, some (wsA.withLocked 10 3 100)) ∧
    lockRoute (some wsA) 3 11 100 = (423, some wsA) :=
  ⟨((lock_acquire_state_machine wsA fileA 3 10 100 (by decide)
      (by decide)).1 (by decide)).1,
   (lock_acquire_state_machine wsA fileB 3 11 100 (by decide)
      (by decide)).2 (by decide)⟩

/-- C2: release is authorized only for the holder. For a workspace
member and an existing file: the holder's release answers 200 and saves
the workspace with the whole descriptor cleared; a release by any other
member, or a release of an unlocked file, answers 400 and leaves the
stored state unchanged. -/
theorem release_holder_only (w : Workspace) (f : File)
    (userId fileId : Nat)
    (hm : w.isMember userId = true)
    (hf : w.findFile fileId = some f) :
    (f.isLocked = true → f.lockedBy = some userId →
      unlockRoute (some w) userId fileId =
        (200, some (w.withUnlocked fileId)) ∧
      ∃ f', (w.withUnlocked fileId).findFile fileId = some f' ∧
        f'.isLocked = false ∧ f'.lockedBy = none ∧ f'.lockedAt = none) ∧
    (f.isLocked = true → f.lockedBy ≠ some userId →
      unlockRoute (some w) userId fileId = (400, some w)) ∧
    (f.isLocked = false →
      unlockRoute (some w) userId fileId = (400, some w)) := by
  refine ⟨fun hl hb => ⟨?_, ?_⟩, fun hl hb => ?_, fun hl => ?_⟩
  · have hu := unlockFile_holder w f fileId userId hf hl hb
    simp [unlockRoute, hm, hu]
  · refine ⟨clearLock f, ?_, rfl, rfl, rfl⟩
    rw [findFile_withUnlocked, hf]
    rfl
  · have hu := unlockFile_nonholder w f fileId userId hf hb
    simp [unlockRoute, hm, hu]
  · have hu := unlockFile_unlocked w f fileId userId hf hl
    simp [unlockRoute, hm, hu]

/-- Witness for C2 at `wsA`: holder 2 releases `fileB` and gets 200 with
the descriptor cleared; non-holder 3 gets 400; releasing the unlocked
`fileA` gets 400; the store is unchanged in the failure cases. -/
theorem release_holder_only_witness :
    unlockRoute (some wsA) 2 11 = (200, some (wsA.withUnlocked 11)) ∧
    unlockRoute (some wsA) 3 11 = (400, some wsA) ∧
    unlockRoute (some wsA) 2 10 = (400, some wsA) :=
  ⟨((release_holder_only wsA fileB 2 11 (by decide) (by decide)).1
      (by decide) (by decide)).1,
   (release_holder_only wsA fileB 3 11 (by decide) (by decide)).2.1
      (by decide) (by decide),
   (release_holder_only wsA fileA 2 10 (by decide) (by decide)).2.2
      (by decide)⟩

/-- C8 counterexample: member 3 acquires a non-existent file (id 99) in
`wsA`; the route answers 423 — the same "Cannot lock" outcome as a lock
conflict — and not the 404 NotFound the claim reserves for a missing
file. -/
theorem acquire_missing_file_counterexample :
    wsA.isMember 3 = true ∧ wsA.findFile 99 = none ∧
    (lockRoute (some wsA) 3 99 100).1 = 423 ∧
    ¬(lockRoute (some wsA) 3 99 100).1 = 404 := by decide

/-- C8 amended: `lockFile` returns `false` both for a missing file and
for an already-locked one, and the route maps any `false` to 423, so an
acquire by a member on a file id absent from the workspace answers 423
(store unchanged), not 404; 404 is produced only when the workspace
itself is absent. -/
theorem acquire_missing_file_gives_conflict (w : Workspace)
    (userId fileId now : Nat)
    (hm : w.isMember userId = true)
    (hf : w.findFile fileId = none) :
    lockRoute (some w) userId fileId now = (423, some w) ∧
    lockRoute none userId fileId now = (404, none) := by
  have h := lockFile_missing w fileId userId now hf
  exact ⟨by simp [lockRoute, hm, h], rfl⟩

/-- Witness for the C8 amended theorem at `wsA` and the absent file id
99. -/
theorem acquire_missing_file_gives_conflict_witness :
    lockRoute (some wsA) 3 99 100 = (423, some wsA) ∧
    lockRoute none 3 99 100 = (404, none) :=
  acquire_missing_file_gives_conflict wsA 3 99 100 (by decide) (by decide)

/-- C7: locked-file edit protection on `PUT /:id/files/:fileId`. For a
workspace member and an existing file: if the file is locked by someone
else the update answers 423 and the stored workspace — hence the file's
content, name and version history — is unchanged; an update by the
holder, or by any member when the file is unlocked, answers 200. -/
theorem locked_file_edit_protection (w : Workspace) (f : File)
    (userId fileId : Nat) (name content : Option String)
    (hm : w.isMember userId = true)
    (hf : w.findFile fileId = some f) :
    (f.isLocked = true → f.lockedBy ≠ some userId →
      updateFileRoute (some w) userId fileId name content =
        (423, some w)) ∧
    (f.lockedBy = some userId →
      (updateFileRoute (some w) userId fileId name content).1 = 200) ∧
    (f.isLocked = false →
      (updateFileRoute (some w) userId fileId name content).1 = 200) := by
  refine ⟨fun hl hb => ?_, fun hb => ?_, fun hl => ?_⟩
  · have hb' : (f.lockedBy != some userId) = true := by
      simpa using hb
    simp [updateFileRoute, hm, hf, hl, hb']
  · have hb' : (f.lockedBy != some userId) = false := by
      simp [hb]
    simp [updateFileRoute, hm, hf, hb']
  · simp [updateFileRoute, hm, hf, hl]

/-- Witness for C7 at `wsA`: member 3 editing `fileB` (locked by 2) gets
423 with the store unchanged; the holder 2 editing `fileB` gets 200; and
member 3 editing the unlocked `fileA` gets 200. -/
theorem locked_file_edit_protection_witness :
    updateFileRoute (some wsA) 3 11 none (some "x = 1") =
      (423, some wsA) ∧
    (updateFileRoute (some wsA) 2 11 none (some "x = 1")).1 = 200 ∧
    (updateFileRoute (some wsA) 3 10 none (some "let a = 5")).1 = 200 :=
  ⟨(locked_file_edit_protection wsA fileB 3 11 none (some "x = 1")
      (by decide) (by decide)).1 (by decide) (by decide),
   (locked_file_edit_protection wsA fileB 2 11 none (some "x = 1")
      (by decide) (by decide)).2.1 (by decide),
   (locked_file_edit_protection wsA fileA 3 10 none (some "let a = 5")
      (by decide) (by decide)).2.2 (by decide)⟩

/-- C3 counterexample: a javascript job that loops forever is spawned
with the 5000 ms timeout and SIGKILL; when the timeout kills the child,
the close handler receives exit code null (`none`) and finalizes the
result with status Error, not the status Timeout the claim requires for
a process that had not begun exiting on its own. -/
theorem timeout_status_counterexample :
    executeDispatch (initialResult 10 2) "javascript" "for(;;);" 0 =
      ExecStep.spawnProc "node" ["-e", "for(;;);"] 5000 "SIGKILL" ∧
    (closeFinalize (initialResult 10 2) none "" "" 5003).status =
      Status.error ∧
    ¬(closeFinalize (initialResult 10 2) none "" "" 5003).status =
      Status.timeout := by decide

/-- C3 amended: a subprocess exceeding the 5000 ms bound is killed
non-gracefully (spawn options timeout 5000, killSignal SIGKILL) and its
result is finalized by the close handler with exit code null, the
elapsed wall time, and status Error — the `timeout` member of the status
enum is never assigned by any finalization path. -/
theorem timeout_finalizes_as_error (r : ExecutionResult)
    (stdout stderr msg : String) (elapsed : Nat) :
    (closeFinalize r none stdout stderr elapsed).status = Status.error ∧
    (closeFinalize r none stdout stderr elapsed).executionTime =
      elapsed ∧
    (∀ ec : Option Int,
      ¬(closeFinalize r ec stdout stderr elapsed).status =
        Status.timeout) ∧
    ¬(errorFinalize r msg elapsed).status = Status.timeout ∧
    ∀ language : String,
      ¬(unsupportedResult r language elapsed).status = Status.timeout := by
  refine ⟨rfl, rfl, fun ec => ?_, by simp [errorFinalize],
    fun language => by simp [unsupportedResult]⟩
  unfold closeFinalize
  cases h : ec == some 0 <;> simp [h]

/-- C4: the unsupported-language short-circuit. A language outside the
allow-list resolves to no interpreter command, so `executeCode` takes
the default branch: no `spawn` step, an immediate Error result whose
stderr names the unsupported language. -/
theorem unsupported_language_no_spawn (language code : String)
    (r : ExecutionResult) (elapsed : Nat)
    (h : language ∉ ["javascript", "typescript", "python", "shell"]) :
    resolveCommand language code = none ∧
    executeDispatch r language code elapsed =
      ExecStep.immediateError (unsupportedResult r language elapsed) ∧
    (unsupportedResult r language elapsed).status = Status.error ∧
    (unsupportedResult r language elapsed).stderr =
      "Language " ++ language ++ " is not supported for execution" := by
  simp only [List.mem_cons, List.not_mem_nil, or_false, not_or] at h
  obtain ⟨h1, h2, h3, h4⟩ := h
  have e1 : (language == "javascript") = false := by
    simpa using h1
  have e2 : (language == "typescript") = false := by
    simpa using h2
  have e3 : (language == "python") = false := by
    simpa using h3
  have e4 : (language == "shell") = false := by
    simpa using h4
  have hr : resolveCommand language code = none := by
    simp [resolveCommand, e1, e2, e3, e4]
  exact ⟨hr, by simp [executeDispatch, hr], rfl, rfl⟩

/-- Witness for C4 at language "ruby": no command resolves and the
immediate Error result names ruby in stderr. -/
theorem unsupported_language_no_spawn_witness :
    resolveCommand "ruby" "puts 1" = none ∧
    executeDispatch (initialResult 10 2) "ruby" "puts 1" 1 =
      ExecStep.immediateError
        (unsupportedResult (initialResult 10 2) "ruby" 1) ∧
    (unsupportedResult (initialResult 10 2) "ruby" 1).status =
      Status.error ∧
    (unsupportedResult (initialResult 10 2) "ruby" 1).stderr =
      "Language " ++ "ruby" ++ " is not supported for execution" :=
  unsupported_language_no_spawn "ruby" "puts 1" (initialResult 10 2) 1
    (by decide)

/-- C5: the terminal status rule. The record created on dequeue has
status Running; the close handler stores the accumulated stdout and
stderr, the exit code, and the elapsed time, and the terminal status is
Completed exactly when the exit code is 0 and Error otherwise. -/
theorem terminal_status_rule (fileId userId : Nat) (r : ExecutionResult)
    (c : Int) (stdout stderr : String) (elapsed : Nat) :
    (initialResult fileId userId).status = Status.running ∧
    (closeFinalize r (some c) stdout stderr elapsed).stdout = stdout ∧
    (closeFinalize r (some c) stdout stderr elapsed).stderr = stderr ∧
    (closeFinalize r (some c) stdout stderr elapsed).exitCode = some c ∧
    (closeFinalize r (some c) stdout stderr elapsed).executionTime =
      elapsed ∧
    ((closeFinalize r (some c) stdout stderr elapsed).status =
      Status.completed ↔ c = 0) ∧
    ((closeFinalize r (some c) stdout stderr elapsed).status =
      Status.error ↔ ¬c = 0) := by
  refine ⟨rfl, rfl, rfl, rfl, rfl, ?_, ?_⟩ <;>
    by_cases hc : c = 0 <;> simp [closeFinalize, hc]

/-- C10: typescript executes as untranspiled javascript — the dispatcher
maps it to exactly the `node -e <code>` invocation used for javascript,
passing the code verbatim with no compilation step. -/
theorem typescript_runs_as_javascript (code : String)
    (r : ExecutionResult) (elapsed : Nat) :
    resolveCommand "typescript" code = some ("node", ["-e", code]) ∧
    resolveCommand "typescript" code = resolveCommand "javascript" code ∧
    executeDispatch r "typescript" code elapsed =
      ExecStep.spawnProc "node" ["-e", code] 5000 "SIGKILL" ∧
    executeDispatch r "typescript" code elapsed =
      executeDispatch r "javascript" code elapsed := by
  refine ⟨?_, ?_, ?_, ?_⟩ <;> simp [resolveCommand, executeDispatch]

/-- C6: FIFO single-worker ordering. In every state reachable by
event-loop steps of the queue machinery (submissions pushing to the
back, the single flag-guarded worker shifting from the front and running
each job to its terminal result before the next), the jobs already at a
terminal result followed by the jobs still queued are exactly the
submissions in submission order; in particular the terminal results are
a prefix of the submission order. -/
theorem fifo_queue_order (s : QueueState) (h : QReachable s) :
    s.done ++ s.queue = s.submitted ∧
    ∃ rest, s.submitted = s.done ++ rest := by
  have key : s.done ++ s.queue = s.submitted := by
    induction h with
    | init => rfl
    | step hs hstep ih =>
      cases hstep with
      | submit j t =>
        rw [← List.append_assoc, ih]
      | start t h1 h2 => exact ih
      | dequeue j rest t h1 h2 =>
        rw [List.append_assoc]
        simpa [h2] using ih
      | finish t h1 h2 => exact ih
  exact ⟨key, s.queue, key.symm⟩

/-- Witness for C6: the concrete trace submit J1, submit J2, start,
dequeue J1, dequeue J2 reaches a state whose terminal results are
exactly the two submissions in submission order. -/
theorem fifo_queue_order_witness :
    QueueState.done
        { queue := [], processing := true, done := [jobJ1, jobJ2],
          submitted := [jobJ1, jobJ2] } ++
      QueueState.queue
        { queue := [], processing := true, done := [jobJ1, jobJ2],
          submitted := [jobJ1, jobJ2] } =
      QueueState.submitted
        { queue := [], processing := true, done := [jobJ1, jobJ2],
          submitted := [jobJ1, jobJ2] } :=
  (fifo_queue_order _ (by
    have r0 := QReachable.init
    have r1 := QReachable.step r0 (QStep.submit jobJ1 QueueState.init)
    have r2 := QReachable.step r1 (QStep.submit jobJ2 _)
    have r3 := QReachable.step r2 (QStep.start _ rfl (by simp))
    have r4 := QReachable.step r3 (QStep.dequeue jobJ1 [jobJ2] _ rfl rfl)
    have r5 := QReachable.step r4 (QStep.dequeue jobJ2 [] _ rfl rfl)
    exact r5)).1

/-- C9: two HTTP lock handlers racing on the same unlocked file. Each
handler is a plain read-then-write: `findById` copies the aggregate,
`lockFile` checks and sets the lock on the private copy, `save`
overwrites the store. When both reads happen before either save — a
possible interleaving, since each `await` yields the event loop — BOTH
handlers answer 200: member 2 and member 3 each believe they acquired
`fileA`, and the second save silently overwrites the first, leaving
member 3 as the stored holder. The spec's required outcome (exactly one
success, the other 423) is violated; nothing in the route conditions the
write on the lock still being empty. -/
theorem race_both_acquires_succeed :
    (lockHandlerFinish wsA wsA 2 10 100).1 = 200 ∧
    (lockHandlerFinish
        (lockHandlerFinish wsA wsA 2 10 100).2 wsA 3 10 101).1 = 200 ∧
    ((lockHandlerFinish
        (lockHandlerFinish wsA wsA 2 10 100).2 wsA 3 10 101).2.findFile
      10).map (fun f => f.lockedBy) = some (some 3) ∧
    ((lockHandlerFinish wsA wsA 2 10 100).2.findFile 10).map
      (fun f => f.lockedBy) = some (some 2) := by decide

end DevCollab
